import Mathlib

/-
Verification of the Talos entity/component/system core (World.cpp,
PhysicsSystem.cpp, MoveBackward.hpp, Server.hpp) against its
natural-language specification.  The C++ is shallowly embedded: each
straight-line member function becomes a Lean function on an explicit
state, and phase or event ordering is captured by trace lists appended
in source order.  Parts of the repository that are referenced but whose
sources are absent (EntityPool, Entity, NullNetwork, Server/Client
bodies) are modelled from the specification and marked as such.
-/

set_option maxHeartbeats 1000000

namespace Talos

/-! ## World::update phase sequencing (World.cpp 174-190) -/

/-- Phases executed by World::update, in the order they appear in the
source: m_network->update, m_systemManager->update, the per-entity loop
over every pool slot, m_PScene->simulate guarded by m_usePhysics, and
m_environment->update. -/
inductive Phase where
  | network
  | systemManager
  | entityUpdate (slot : Nat)
  | physicsStep
  | environment
deriving DecidableEq, Repr

/-- State of the World restricted to what the update sequencing reads:
the m_usePhysics flag, the entity pool size, and a log of executed
phases. -/
structure WorldState where
  usePhysics : Bool
  poolSize : Nat
  log : List Phase
deriving DecidableEq, Repr

/-- Embedding of the call m_network->update() at World.cpp:177. -/
def networkUpdate (w : WorldState) : WorldState :=
  { w with log := w.log ++ [Phase.network] }

/-- Embedding of the call m_systemManager->update() at World.cpp:179. -/
def systemManagerUpdate (w : WorldState) : WorldState :=
  { w with log := w.log ++ [Phase.systemManager] }

/-- Embedding of the loop at World.cpp:181-183: for i in 0..m_poolSize,
m_pool[i].update(*this). -/
def entityLoop (w : WorldState) : WorldState :=
  { w with log := w.log ++ (List.range w.poolSize).map Phase.entityUpdate }

/-- Embedding of the call m_PScene->simulate() at World.cpp:186. -/
def physicsSimulate (w : WorldState) : WorldState :=
  { w with log := w.log ++ [Phase.physicsStep] }

/-- Embedding of the call m_environment->update() at World.cpp:189. -/
def environmentUpdate (w : WorldState) : WorldState :=
  { w with log := w.log ++ [Phase.environment] }

/-- World::update (World.cpp 174-190), a straight-line transcription:
network, system manager, per-entity loop, physics step guarded by
m_usePhysics, environment. -/
def World.update (w : WorldState) : WorldState :=
  let w1 := networkUpdate w
  let w2 := systemManagerUpdate w1
  let w3 := entityLoop w2
  let w4 := if w3.usePhysics then physicsSimulate w3 else w3
  environmentUpdate w4

/-! ## Physics round trip (PhysicsSystem.cpp 45-63 with World.cpp 179/186) -/

/-- Rigid-body pose as reported by the physics engine: position p.x p.y
p.z and orientation quaternion q.w q.x q.y q.z, as read in
PhysicsSystem.cpp 53-61. -/
structure Pose where
  px : Int
  py : Int
  pz : Int
  qw : Int
  qx : Int
  qy : Int
  qz : Int
deriving DecidableEq, Repr

/-- State of one physics-enabled entity across a tick: the pose the
physics engine currently reports for its rigid actor, and the position
and orientation stored in its scene component. -/
structure PhysEntityState where
  enginePose : Pose
  scenePos : Int × Int × Int
  sceneOri : Int × Int × Int × Int
deriving DecidableEq, Repr

/-- PhysicsSystem::update for one tracked entity (PhysicsSystem.cpp
45-63): reads getGlobalPose() and writes the scene component position
from transform.p and orientation from transform.q. -/
def PhysicsSystem.updateEntity (e : PhysEntityState) : PhysEntityState :=
  let transform := e.enginePose
  { e with
      scenePos := (transform.px, transform.py, transform.pz)
      sceneOri := (transform.qw, transform.qx, transform.qy, transform.qz) }

/-- PScene::simulate at World.cpp:186, with the physics solver itself an
external collaborator: advancing the engine pose by one step is an
arbitrary function supplied as a parameter. -/
def PScene.simulate (step : Pose → Pose) (e : PhysEntityState) : PhysEntityState :=
  { e with enginePose := step e.enginePose }

/-- One World::update tick restricted to one physics-enabled entity with
m_usePhysics true: the system-manager update, which runs
PhysicsSystem::update (World.cpp:179), happens before
m_PScene->simulate (World.cpp:186). -/
def World.physTick (step : Pose → Pose) (e : PhysEntityState) : PhysEntityState :=
  PScene.simulate step (PhysicsSystem.updateEntity e)

/-! ## Network strategy selection and role transitions
(World.cpp 44, 117-126, 259-293) -/

/-- Which network object the World m_network pointer designates: the
injected m_server, the injected m_client, or the module-level static
SNullNetwork singleton defined at World.cpp:44. -/
inductive NetSource where
  | injectedServer
  | injectedClient
  | moduleNullSingleton
deriving DecidableEq, Repr

/-- Network pointer assignment in World::init (World.cpp 117-126):
m_network is m_server if the server reports ready, else m_client if the
client reports ready, else the static SNullNetwork singleton. -/
def World.initNetworkSource (serverUp clientUp : Bool) : NetSource :=
  if serverUp then NetSource.injectedServer
  else if clientUp then NetSource.injectedClient
  else NetSource.moduleNullSingleton

/-- World state restricted to the network role machinery: which object
m_network points at, and the m_initialized flag of the server and of the
client objects (Server.hpp:84 shows the server flag; the client is
symmetric). -/
structure NetWorld where
  current : NetSource
  serverUp : Bool
  clientUp : Bool
deriving DecidableEq, Repr

/-- Result of m_network->initialized(): the null singleton always
reports false (modelled from the spec: the Disabled role is never
initialized), the server and client report their own flags
(Server.hpp 98-100). -/
def NetWorld.networkUp (w : NetWorld) : Bool :=
  match w.current with
  | NetSource.moduleNullSingleton => false
  | NetSource.injectedServer => w.serverUp
  | NetSource.injectedClient => w.clientUp

/-- Failure raised by the Assert guards at World.cpp:261 and
World.cpp:280. -/
inductive AssertError where
  | alreadyOn
deriving DecidableEq, Repr

/-- World::initServer (World.cpp 259-266): asserts that the current
network is not initialized, then points m_network at the server and
calls Server::init.  Modelled from the spec: Server::init sets its
initialized flag (section 8, initServer makes initialized() true). -/
def World.initServer (w : NetWorld) : Except AssertError NetWorld :=
  if w.networkUp then Except.error AssertError.alreadyOn
  else Except.ok { w with current := NetSource.injectedServer, serverUp := true }

/-- World::initClient (World.cpp 278-285): same guard, then points
m_network at the client and calls Client::init.  Modelled from the spec:
Client::init sets its initialized flag. -/
def World.initClient (w : NetWorld) : Except AssertError NetWorld :=
  if w.networkUp then Except.error AssertError.alreadyOn
  else Except.ok { w with current := NetSource.injectedClient, clientUp := true }

/-- World::destroyServer (World.cpp 270-274): m_network->destroy(),
then m_network = SNullNetwork.  Modelled from the spec (section 4.4):
destroy on the active role tears down its connection state, clearing its
initialized flag; destroy on the null singleton is a no-op. -/
def World.destroyServer (w : NetWorld) : NetWorld :=
  { current := NetSource.moduleNullSingleton
    serverUp := if w.current = NetSource.injectedServer then false else w.serverUp
    clientUp := if w.current = NetSource.injectedClient then false else w.clientUp }

/-- World::destroyClient (World.cpp 289-293): identical body to
World::destroyServer, m_network->destroy() then m_network =
SNullNetwork. -/
def World.destroyClient (w : NetWorld) : NetWorld :=
  { current := NetSource.moduleNullSingleton
    serverUp := if w.current = NetSource.injectedServer then false else w.serverUp
    clientUp := if w.current = NetSource.injectedClient then false else w.clientUp }

/-! ## Entity pool and ID map (World.cpp 198-211, 231-238; EntityPool
modelled from the spec, sections 4.1 and 3) -/

/-- Failure signal of the entity pool (spec section 7). -/
inductive PoolError where
  | poolExhausted
deriving DecidableEq, Repr

/-- Modelled from the spec: the slot array of the EntityPool
(Entity/EntityPool.hpp is not under src).  A slot holds some id when
live and none when free; writing a fresh id into the first free slot
yields the updated array, or none when every slot is occupied. -/
def setFirstFree (v : Nat) : List (Option Nat) → Option (List (Option Nat))
  | [] => none
  | none :: rest => some (some v :: rest)
  | some x :: rest => (setFirstFree v rest).map (fun l => some x :: l)

/-- Modelled from the spec: EntityPool state, a fixed array of slots
plus the never-reused id counter (spec section 3: an entity id is unique
for the process lifetime of the pool). -/
structure EntityPool where
  slots : List (Option Nat)
  nextID : Nat
deriving DecidableEq, Repr

/-- Modelled from the spec (section 4.1): EntityPool::create returns a
handle to a free slot carrying a fresh id, or fails with PoolExhausted
when no slot is free. -/
def EntityPool.create (p : EntityPool) : Except PoolError (Nat × EntityPool) :=
  match setFirstFree p.nextID p.slots with
  | none => Except.error PoolError.poolExhausted
  | some slots2 => Except.ok (p.nextID, { slots := slots2, nextID := p.nextID + 1 })

/-- Modelled from the spec (section 4.1): EntityPool::destroy returns
the slot holding the given id to the free set and is a no-op on a
foreign or already-free handle. -/
def EntityPool.destroy (p : EntityPool) (eid : Nat) : EntityPool :=
  { p with slots := p.slots.map (fun s => if s = some eid then none else s) }

/-- World state restricted to entity management: the pool and the
m_entityIDMap, the latter as the list of registered ids. -/
structure EntityWorld where
  pool : EntityPool
  idMap : List Nat
deriving DecidableEq, Repr

/-- Ordered events of World::createEntity and World::destroyEntity,
one per source line: pool create (World.cpp:200), map insert
(World.cpp:201), handle returned to the caller (World.cpp:202), map
erase (World.cpp:209), pool destroy (World.cpp:210). -/
inductive EntEvent where
  | poolCreate (eid : Nat)
  | mapInsert (eid : Nat)
  | retHandle (eid : Nat)
  | mapErase (eid : Nat)
  | poolDestroy (eid : Nat)
  | poolCreateFailed
deriving DecidableEq, Repr

/-- Failure observable when running World::createEntity. -/
inductive RunError where
  | nullHandleDeref
  | reportedPoolExhausted
deriving DecidableEq, Repr

/-- World::createEntity (World.cpp 198-203): e = m_entityPool->create();
m_entityIDMap[e->getID()] = e; return e.  The result of create is used
without any check: when the pool is exhausted the very next expression
e->getID() dereferences the null handle, so the error case is a crash,
not a reported PoolExhausted. -/
def World.createEntity (w : EntityWorld) :
    Except RunError (Nat × EntityWorld) × List EntEvent :=
  match EntityPool.create w.pool with
  | Except.error _ =>
      (Except.error RunError.nullHandleDeref, [EntEvent.poolCreateFailed])
  | Except.ok (eid, pool2) =>
      (Except.ok (eid, { pool := pool2, idMap := eid :: w.idMap }),
       [EntEvent.poolCreate eid, EntEvent.mapInsert eid, EntEvent.retHandle eid])

/-- The state after line World.cpp:209 alone: the ID map entry erased,
the pool not yet touched. -/
def World.eraseID (w : EntityWorld) (eid : Nat) : EntityWorld :=
  { w with idMap := w.idMap.filter (fun x => decide (x ≠ eid)) }

/-- World::destroyEntity (World.cpp 207-211):
m_entityIDMap.erase(e->getID()) first, then m_entityPool->destroy(e). -/
def World.destroyEntity (w : EntityWorld) (eid : Nat) :
    EntityWorld × List EntEvent :=
  let mid := World.eraseID w eid
  ({ mid with pool := EntityPool.destroy mid.pool eid },
   [EntEvent.mapErase eid, EntEvent.poolDestroy eid])

/-- World::getEntityPtr (World.cpp 231-238): returns the mapped entity
when the id is registered in m_entityIDMap, otherwise nullptr. -/
def World.getEntityPtr (w : EntityWorld) (eid : Nat) : Option Nat :=
  if eid ∈ w.idMap then some eid else none

/-- Agreement of the ID map with the live pool slots (spec section 3):
an id is registered in m_entityIDMap exactly when some slot holds it. -/
def World.mapAgrees (w : EntityWorld) : Prop :=
  ∀ eid : Nat, eid ∈ w.idMap ↔ some eid ∈ w.pool.slots

/-- Freshness of the id counter: every live id is below nextID, so a
newly created entity never collides with a live one. -/
def World.idsFresh (w : EntityWorld) : Prop :=
  ∀ eid : Nat, some eid ∈ w.pool.slots → eid < w.pool.nextID

/-! ## attachComponent ordering (World.cpp 306-312, 324-394) -/

/-- Component kinds with an attachComponent specialization
(World.cpp 320-394). -/
inductive CompKind where
  | actor
  | camera
  | light
  | model
  | physics
  | scene
deriving DecidableEq, Repr

/-- Ordered events of attaching one component: factory create, the
component init call with the world reference, the attach to the owning
entity. -/
inductive CompEvent where
  | create (k : CompKind)
  | compInit (k : CompKind)
  | attach (k : CompKind)
deriving DecidableEq, Repr

/-- initComponent (World.cpp 306-312): component->init(*world), then
entity->attachComponent(component), in that order. -/
def initComponentTrace (k : CompKind) : List CompEvent :=
  [CompEvent.compInit k, CompEvent.attach k]

/-- World::attachComponent specialization for each kind (World.cpp
324-394): every one factory-creates its component, then calls the
shared initComponent helper. -/
def World.attachComponentTrace (k : CompKind) : List CompEvent :=
  [CompEvent.create k] ++ initComponentTrace k

/-- Observable component state while the attach sequence runs: whether
the factory has produced it, whether its init has completed, and
whether the owning entity can see it. -/
structure CompState where
  createdDone : Bool
  initDone : Bool
  attachedToEntity : Bool
deriving DecidableEq, Repr

/-- Effect of one attach-sequence event on the observable state. -/
def CompState.step (s : CompState) (e : CompEvent) : CompState :=
  match e with
  | CompEvent.create _ => { s with createdDone := true }
  | CompEvent.compInit _ => { s with initDone := true }
  | CompEvent.attach _ => { s with attachedToEntity := true }

/-- Runs a list of attach-sequence events from the blank state. -/
def runEvents (es : List CompEvent) : CompState :=
  es.foldl CompState.step { createdDone := false, initDone := false, attachedToEntity := false }

/-! ## Per-frame pool scan under destruction (World.cpp 181-183) -/

/-- Marks the listed slot indices free, scanning from index i.
Modelled from the spec: Entity::update is not under src, so its effect
on liveness is over-approximated by an arbitrary set of destroyed
slots. -/
def applyDestroysFrom (ds : List Nat) : Nat → List Bool → List Bool
  | _, [] => []
  | i, b :: rest =>
      (if i ∈ ds then false else b) :: applyDestroysFrom ds (i + 1) rest

/-- Marks the listed slot indices free. -/
def applyDestroys (ds : List Nat) (live : List Bool) : List Bool :=
  applyDestroysFrom ds 0 live

/-- The per-entity loop of World::update (World.cpp 181-183): indices 0
to m_poolSize - 1 are visited in order; visiting slot i may destroy the
slots sched i (the schedule is adversarial since Entity::update is
external to src).  Returns the visit order and the final liveness. -/
def World.entityScan (sched : Nat → List Nat) (live : List Bool) :
    List Nat × List Bool :=
  (List.range live.length).foldl
    (fun acc i => (acc.fst ++ [i], applyDestroys (sched i) acc.snd))
    ([], live)

/-! ## PhysicsSystem iteration over tracked entities
(PhysicsSystem.cpp 45-63) -/

/-- World state seen by PhysicsSystem::update: the ids of entities
currently live in the pool, and the ids held in the m_entities map of
the system. -/
structure TrackedWorld where
  liveIDs : List Nat
  tracked : List Nat
deriving DecidableEq, Repr

/-- Failure observable when the system dereferences a tracked entity
that has been destroyed. -/
inductive SysError where
  | danglingEntityDeref
deriving DecidableEq, Repr

/-- The loop body chain of PhysicsSystem::update: each tracked entity is
dereferenced (getComponent calls at PhysicsSystem.cpp 48-51) with no
liveness check; dereferencing a destroyed entity is the dangling-deref
failure. -/
def sysScan (liveIDs : List Nat) : List Nat → Except SysError Unit
  | [] => Except.ok ()
  | t :: rest =>
      if t ∈ liveIDs then sysScan liveIDs rest
      else Except.error SysError.danglingEntityDeref

/-- PhysicsSystem::update (PhysicsSystem.cpp 45-63): iterates m_entities
in full, dereferencing every tracked entity, and never removes an entry
from m_entities. -/
def PhysicsSystem.updateRun (w : TrackedWorld) : Except SysError TrackedWorld :=
  match sysScan w.liveIDs w.tracked with
  | Except.error err => Except.error err
  | Except.ok _ => Except.ok w

/-! ## MoveBackwardCommand (MoveBackward.hpp 28-38) -/

/-- ActorComponent state restricted to what the command touches, plus a
sibling flag to record that nothing else is written.  Modelled from the
spec where needed: Component/ActorComponent.hpp is not under src; the
setter writes the moving-backward flag. -/
structure ActorComponent where
  movingBackward : Bool
  movingForward : Bool
deriving DecidableEq, Repr

/-- ActorComponent::setMovingBackward: assigns the flag. -/
def ActorComponent.setMovingBackward (a : ActorComponent) (b : Bool) : ActorComponent :=
  { a with movingBackward := b }

/-- An entity as seen by the command: it may or may not hold an actor
component (Entity::getActorComponent returns null when absent). -/
structure ActorEntity where
  actor : Option ActorComponent
deriving DecidableEq, Repr

/-- MoveBackwardCommand::execute (MoveBackward.hpp 28-32):
entity->getActorComponent()->setMovingBackward(true); dereferencing a
missing actor component is the none outcome. -/
def MoveBackwardCommand.execute (e : ActorEntity) : Option ActorEntity :=
  e.actor.map (fun a => { actor := some (a.setMovingBackward true) })

/-- MoveBackwardCommand::unexecute (MoveBackward.hpp 34-38):
entity->getActorComponent()->setMovingBackward(false). -/
def MoveBackwardCommand.unexecute (e : ActorEntity) : Option ActorEntity :=
  e.actor.map (fun a => { actor := some (a.setMovingBackward false) })

/-! ## Helper lemmas -/

/-- Membership in the slot array after writing a fresh id into the first
free slot: exactly the old members plus the fresh id. -/
lemma mem_setFirstFree {v e : Nat} {l l' : List (Option Nat)}
    (h : setFirstFree v l = some l') :
    some e ∈ l' ↔ e = v ∨ some e ∈ l := by
  induction l generalizing l' with
  | nil => simp [setFirstFree] at h
  | cons hd rest ih =>
    cases hd with
    | none =>
      simp only [setFirstFree, Option.some.injEq] at h
      subst h
      simp [List.mem_cons, eq_comm]
    | some x =>
      simp only [setFirstFree, Option.map_eq_some'] at h
      obtain ⟨r', hr', rfl⟩ := h
      simp only [List.mem_cons, ih hr', Option.some.injEq]
      tauto

/-- Membership in the slot array after EntityPool::destroy: the old
members minus the destroyed id. -/
lemma mem_destroy_slots (p : EntityPool) (eid e : Nat) :
    some e ∈ (EntityPool.destroy p eid).slots ↔ some e ∈ p.slots ∧ e ≠ eid := by
  simp only [EntityPool.destroy, List.mem_map]
  constructor
  · rintro ⟨s, hs, hif⟩
    by_cases hse : s = some eid
    · simp [hse] at hif
    · rw [if_neg hse] at hif
      subst hif
      exact ⟨hs, fun hc => hse (by rw [hc])⟩
  · rintro ⟨hmem, hne⟩
    refine ⟨some e, hmem, ?_⟩
    have : (some e : Option Nat) ≠ some eid := fun hc => hne (Option.some.inj hc)
    rw [if_neg this]

/-- The visit list accumulated by the per-entity loop is the index list
appended to the accumulator, whatever the destruction schedule does. -/
lemma entityScan_fold (s : Nat → List Nat) (l : List Nat) :
    ∀ (pre : List Nat) (lv : List Bool),
      (l.foldl (fun acc i => (acc.fst ++ [i], applyDestroys (s i) acc.snd))
          (pre, lv)).fst = pre ++ l := by
  induction l with
  | nil => intro pre lv; simp
  | cons hd tl ih =>
    intro pre lv
    simp only [List.foldl_cons]
    rw [ih]
    simp

/-! ## Claim theorems -/

/-- C1: every call to World::update executes the five phases in the
fixed source order with none skipped: network update, system-manager
update, the per-entity loop over the pool, the physics step exactly when
physics is enabled for this world, and the environment update. -/
theorem c1_update_phase_order (w : WorldState) :
    (World.update w).log
      = w.log ++ [Phase.network, Phase.systemManager]
          ++ (List.range w.poolSize).map Phase.entityUpdate
          ++ (if w.usePhysics then [Phase.physicsStep] else [])
          ++ [Phase.environment] := by
  cases h : w.usePhysics <;>
    simp [World.update, networkUpdate, systemManagerUpdate, entityLoop,
      physicsSimulate, environmentUpdate, h, List.append_assoc]

/-- C2: World::createEntity registers the new entity in the ID map
before the handle-return event, World::destroyEntity erases the ID map
entry before the pool-destroy event, a lookup of the id in the
mid-recycle state already fails, and both operations preserve agreement
of the ID map with the live pool slots together with id freshness. -/
theorem c2_idmap_ordering_and_agreement (w : EntityWorld)
    (hA : World.mapAgrees w) (hF : World.idsFresh w) :
    (∀ eid w2 tr, World.createEntity w = (Except.ok (eid, w2), tr) →
        tr = [EntEvent.poolCreate eid, EntEvent.mapInsert eid, EntEvent.retHandle eid]
        ∧ eid ∈ w2.idMap
        ∧ World.mapAgrees w2 ∧ World.idsFresh w2)
    ∧ ∀ eid,
        (World.destroyEntity w eid).snd
            = [EntEvent.mapErase eid, EntEvent.poolDestroy eid]
        ∧ World.getEntityPtr (World.eraseID w eid) eid = none
        ∧ World.mapAgrees (World.destroyEntity w eid).fst
        ∧ World.idsFresh (World.destroyEntity w eid).fst := by
  constructor
  · intro eid w2 tr h
    cases hsf : setFirstFree w.pool.nextID w.pool.slots with
    | none =>
      simp [World.createEntity, EntityPool.create, hsf] at h
    | some slots2 =>
      simp only [World.createEntity, EntityPool.create, hsf, Prod.mk.injEq,
        Except.ok.injEq] at h
      obtain ⟨⟨heid, hw2⟩, htr⟩ := h
      subst heid
      subst hw2
      subst htr
      refine ⟨rfl, List.mem_cons_self _ _, ?_, ?_⟩
      · intro e
        simp only [List.mem_cons, mem_setFirstFree hsf]
        rw [hA e]
      · intro e he
        dsimp only at he ⊢
        rw [mem_setFirstFree hsf] at he
        rcases he with he | he
        · omega
        · have := hF e he
          omega
  · intro eid
    have hnot : eid ∉ (World.eraseID w eid).idMap := by
      simp [World.eraseID, List.mem_filter]
    refine ⟨rfl, ?_, ?_, ?_⟩
    · simp [World.getEntityPtr, hnot]
    · intro e
      simp only [World.destroyEntity, World.eraseID, List.mem_filter,
        decide_eq_true_eq, mem_destroy_slots]
      rw [hA e]
    · intro e he
      simp only [World.destroyEntity, World.eraseID, mem_destroy_slots] at he
      exact hF e he.1

/-- Witness for C2 at a world holding one live entity with id 0. -/
theorem c2_idmap_witness :
    World.mapAgrees { pool := { slots := [some 0], nextID := 1 }, idMap := [0] }
    ∧ World.idsFresh { pool := { slots := [some 0], nextID := 1 }, idMap := [0] }
    ∧ World.getEntityPtr
        (World.eraseID { pool := { slots := [some 0], nextID := 1 }, idMap := [0] } 0) 0
        = none := by
  have hA : World.mapAgrees { pool := { slots := [some 0], nextID := 1 }, idMap := [0] } := by
    intro e
    simp [World.mapAgrees]
  have hF : World.idsFresh { pool := { slots := [some 0], nextID := 1 }, idMap := [0] } := by
    intro e he
    simp at he
    subst he
    decide
  exact ⟨hA, hF, ((c2_idmap_ordering_and_agreement _ hA hF).2 0).2.1⟩

/-- C3: for every component kind, attachComponent produces the events
factory-create, component init, attach to the entity, in exactly that
order; the init-then-attach tail is the shared initComponent helper used
by every specialization; and in no prefix of the sequence is the
component attached to the entity before its init has completed. -/
theorem c3_attach_create_init_attach (k : CompKind) :
    World.attachComponentTrace k
        = [CompEvent.create k, CompEvent.compInit k, CompEvent.attach k]
    ∧ (World.attachComponentTrace k).drop 1 = initComponentTrace k
    ∧ ∀ n, (runEvents ((World.attachComponentTrace k).take n)).attachedToEntity = true →
        (runEvents ((World.attachComponentTrace k).take n)).initDone = true := by
  refine ⟨rfl, rfl, fun n h => ?_⟩
  match n with
  | 0 =>
    simp [World.attachComponentTrace, initComponentTrace, runEvents, CompState.step] at h
  | 1 =>
    simp [World.attachComponentTrace, initComponentTrace, runEvents, CompState.step] at h
  | 2 =>
    simp [World.attachComponentTrace, initComponentTrace, runEvents, CompState.step] at h
  | (m + 3) =>
    simp [World.attachComponentTrace, initComponentTrace, runEvents, CompState.step]

/-- Witness for C3 at the actor kind and the full three-event run. -/
theorem c3_attach_witness :
    (runEvents ((World.attachComponentTrace CompKind.actor).take 3)).attachedToEntity = true
    ∧ (runEvents ((World.attachComponentTrace CompKind.actor).take 3)).initDone = true :=
  ⟨rfl, (c3_attach_create_init_attach CompKind.actor).2.2 3 rfl⟩

/-- C4: initServer and initClient fail with the assert guard whenever
the current network reports initialized, so a direct Server to Client
transition fails, while the sequence Disabled, Server, Disabled, Client
succeeds. -/
theorem c4_network_role_transitions :
    (∀ w : NetWorld, w.networkUp = true →
        World.initServer w = Except.error AssertError.alreadyOn
        ∧ World.initClient w = Except.error AssertError.alreadyOn)
    ∧ World.initServer
        { current := NetSource.moduleNullSingleton, serverUp := false, clientUp := false }
        = Except.ok { current := NetSource.injectedServer, serverUp := true, clientUp := false }
    ∧ World.initClient
        { current := NetSource.injectedServer, serverUp := true, clientUp := false }
        = Except.error AssertError.alreadyOn
    ∧ World.initClient
        (World.destroyServer
          { current := NetSource.injectedServer, serverUp := true, clientUp := false })
        = Except.ok { current := NetSource.injectedClient, serverUp := false, clientUp := true } := by
  refine ⟨fun w h => ?_, rfl, rfl, rfl⟩
  constructor <;> simp [World.initServer, World.initClient, h]

/-- Witness for C4 at a world whose network is an initialized server. -/
theorem c4_network_witness :
    NetWorld.networkUp
        { current := NetSource.injectedServer, serverUp := true, clientUp := false } = true
    ∧ (World.initServer
          { current := NetSource.injectedServer, serverUp := true, clientUp := false }
          = Except.error AssertError.alreadyOn
       ∧ World.initClient
          { current := NetSource.injectedServer, serverUp := true, clientUp := false }
          = Except.error AssertError.alreadyOn) :=
  ⟨rfl, c4_network_role_transitions.1 _ rfl⟩

/-- The physics step used in the C5 counterexample: the engine moves the
body one unit along x during simulate. -/
def bumpX : Pose → Pose := fun p => { p with px := p.px + 1 }

/-- Initial state of the physics-enabled entity in the C5
counterexample. -/
def physE0 : PhysEntityState :=
  { enginePose := { px := 0, py := 0, pz := 0, qw := 1, qx := 0, qy := 0, qz := 0 }
    scenePos := (5, 5, 5)
    sceneOri := (9, 9, 9, 9) }

/-- C5 counterexample: with a physics step that moves the body, the
scene component position after one tick differs from the pose the
physics phase of that same tick wrote, because the system read-back
(World.cpp:179) runs before simulate (World.cpp:186). -/
theorem c5_same_tick_counterexample :
    ¬ ((World.physTick bumpX physE0).scenePos
        = ((World.physTick bumpX physE0).enginePose.px,
           (World.physTick bumpX physE0).enginePose.py,
           (World.physTick bumpX physE0).enginePose.pz)) := by
  decide

/-- C5 amended: within a tick the scene component receives, byte for
byte, the pose the physics engine reported as the tick began, that is
the pose written by the previous tick physics step; the pose written by
the physics step of a tick is read back during the following tick. -/
theorem c5_readback_previous_tick (step : Pose → Pose) (e : PhysEntityState) :
    (World.physTick step e).scenePos
        = (e.enginePose.px, e.enginePose.py, e.enginePose.pz)
    ∧ (World.physTick step e).sceneOri
        = (e.enginePose.qw, e.enginePose.qx, e.enginePose.qy, e.enginePose.qz)
    ∧ (World.physTick step (World.physTick step e)).scenePos
        = ((World.physTick step e).enginePose.px,
           (World.physTick step e).enginePose.py,
           (World.physTick step e).enginePose.pz) :=
  ⟨rfl, rfl, rfl⟩

/-- C6: the per-entity loop visits exactly the index sequence 0 to
poolSize - 1, the visit sequence is unchanged by any destruction
schedule running during the scan, and every slot live at frame start is
visited exactly once. -/
theorem c6_scan_visits_live_once (sched : Nat → List Nat) (live : List Bool) :
    (World.entityScan sched live).fst = List.range live.length
    ∧ (∀ sched2, (World.entityScan sched live).fst = (World.entityScan sched2 live).fst)
    ∧ ∀ i, live.getD i false = true → (World.entityScan sched live).fst.count i = 1 := by
  have hfst : ∀ (s : Nat → List Nat),
      (World.entityScan s live).fst = List.range live.length := by
    intro s
    simpa [World.entityScan] using entityScan_fold s (List.range live.length) [] live
  refine ⟨hfst sched, fun sched2 => by rw [hfst, hfst], fun i hi => ?_⟩
  rw [hfst]
  have hlen : i < live.length := by
    by_contra hcon
    push_neg at hcon
    rw [List.getD_eq_default _ _ hcon] at hi
    exact Bool.false_ne_true hi
  exact List.count_eq_one_of_mem (List.nodup_range _) (List.mem_range.mpr hlen)

/-- Witness for C6 at a two-slot pool whose first slot is live, with a
schedule destroying slot 1 during the first visit. -/
theorem c6_scan_witness :
    ([true, false].getD 0 false = true)
    ∧ (World.entityScan (fun _ => [1]) [true, false]).fst.count 0 = 1 :=
  ⟨rfl, (c6_scan_visits_live_once (fun _ => [1]) [true, false]).2.2 0 rfl⟩

/-- C7: evaluation at the failing input.  PhysicsSystem::update
dereferences a tracked entity that is no longer live with no liveness
check, the dangling dereference, and on a run that survives it leaves
the tracked set unchanged, never dropping an entry. -/
theorem c7_dangling_deref :
    PhysicsSystem.updateRun { liveIDs := [], tracked := [7] }
        = Except.error SysError.danglingEntityDeref
    ∧ PhysicsSystem.updateRun { liveIDs := [7], tracked := [7] }
        = Except.ok { liveIDs := [7], tracked := [7] } := by
  constructor <;> rfl

/-- C8 counterexample: the claim that no module-level default
null-network singleton exists fails, since World::init with neither the
server nor the client initialized assigns m_network from the static
SNullNetwork defined at World.cpp:44. -/
theorem c8_singleton_counterexample :
    World.initNetworkSource false false = NetSource.moduleNullSingleton := rfl

/-- C8 amended: the World holds exactly one active strategy pointer,
but the Disabled role is realized by the module-level static
SNullNetwork singleton, installed as the default exactly when neither
server nor client is initialized, and reinstalled by destroyServer and
destroyClient. -/
theorem c8_singleton_default :
    (∀ s c, World.initNetworkSource s c = NetSource.moduleNullSingleton
        ↔ s = false ∧ c = false)
    ∧ (∀ w : NetWorld, (World.destroyServer w).current = NetSource.moduleNullSingleton)
    ∧ (∀ w : NetWorld, (World.destroyClient w).current = NetSource.moduleNullSingleton) := by
  refine ⟨?_, fun w => rfl, fun w => rfl⟩
  intro s c
  cases s <;> cases c <;> simp [World.initNetworkSource]

/-- C9: evaluation at the failing input.  On a full pool,
EntityPool::create reports PoolExhausted, yet World::createEntity
dereferences the unchecked null handle at e->getID() (World.cpp:201),
so the observable outcome is a null-handle dereference and never a
reported PoolExhausted. -/
theorem c9_unchecked_create :
    EntityPool.create { slots := [some 0, some 1], nextID := 2 }
        = Except.error PoolError.poolExhausted
    ∧ (World.createEntity
        { pool := { slots := [some 0, some 1], nextID := 2 }, idMap := [0, 1] }).fst
        = Except.error RunError.nullHandleDeref
    ∧ (World.createEntity
        { pool := { slots := [some 0, some 1], nextID := 2 }, idMap := [0, 1] }).fst
        ≠ Except.error RunError.reportedPoolExhausted := by
  refine ⟨rfl, rfl, ?_⟩
  intro h
  simp [World.createEntity, EntityPool.create, setFirstFree] at h

/-- C10: for an entity holding an actor component, execute sets the
moving-backward flag true and unexecute sets it false, each regardless
of the prior value and touching nothing else; execute is idempotent,
and execute followed by unexecute leaves the flag false rather than
restoring the original value. -/
theorem c10_move_backward_flags (e : ActorEntity) (a : ActorComponent)
    (h : e.actor = some a) :
    MoveBackwardCommand.execute e
        = some { actor := some { movingBackward := true, movingForward := a.movingForward } }
    ∧ MoveBackwardCommand.unexecute e
        = some { actor := some { movingBackward := false, movingForward := a.movingForward } }
    ∧ (MoveBackwardCommand.execute e).bind MoveBackwardCommand.execute
        = MoveBackwardCommand.execute e
    ∧ (MoveBackwardCommand.execute e).bind MoveBackwardCommand.unexecute
        = some { actor := some { movingBackward := false, movingForward := a.movingForward } } := by
  simp [MoveBackwardCommand.execute, MoveBackwardCommand.unexecute,
    ActorComponent.setMovingBackward, h]

/-- Witness for C10 at an actor whose moving-backward flag starts true:
the unexecute after execute still ends false, not restored to true. -/
theorem c10_move_backward_witness :
    (ActorEntity.mk (some ⟨true, true⟩)).actor = some ⟨true, true⟩
    ∧ (MoveBackwardCommand.execute ⟨some ⟨true, true⟩⟩ = some ⟨some ⟨true, true⟩⟩
       ∧ MoveBackwardCommand.unexecute ⟨some ⟨true, true⟩⟩ = some ⟨some ⟨false, true⟩⟩
       ∧ (MoveBackwardCommand.execute ⟨some ⟨true, true⟩⟩).bind MoveBackwardCommand.execute
          = MoveBackwardCommand.execute ⟨some ⟨true, true⟩⟩
       ∧ (MoveBackwardCommand.execute ⟨some ⟨true, true⟩⟩).bind MoveBackwardCommand.unexecute
          = some ⟨some ⟨false, true⟩⟩) :=
  ⟨rfl, c10_move_backward_flags _ _ rfl⟩

end Talos
